import Mathlib

/-!
Verification development for the stlouisfed-fred-web-proxy repository.

The Rust sources are shallowly embedded:
* `entities.rs` data types become Lean structures (fields that are dead in
  the modelled logic — titles, realtime echo fields of responses, counters —
  are omitted and noted at each structure);
* `chrono::NaiveDate` is modelled as `Int` (a count of days; only ordering
  and adding/subtracting whole days are used by the code);
* the SQLite tables of `local_cache.rs` become association lists of rows,
  and the SQL statements become pure functions over them;
* the upstream FRED HTTP API becomes an oracle function from the query
  parameters the code puts in the URL to the wire-level outcome (transport
  error, or a JSON body that is either an observations/series payload or a
  provider error payload), so that both deserialization paths in the code
  (`main.rs` decoding `FredResponseObservation` directly, `fred.rs` decoding
  `FredApiResponse<T>`) can be told apart;
* the `async` HTTP handlers of `main.rs` become pure functions that also
  return instrumentation: the list of upstream queries issued, the cache
  reads and the cache writes performed, and the resulting cache state.
  The unbounded pagination `loop` is given fuel; `none` means out of fuel.
-/

/-- chrono::NaiveDate, modelled as a day count. Only ordering and
adding/subtracting whole days (`chrono::Duration::days(1)`) appear in the
code. -/
abbrev Date := Int

/-- entities.rs `RealtimeObservation { date, value }`. -/
structure RealtimeObservation where
  date : Date
  value : String
deriving DecidableEq, Repr

/-- One row of the `realtime_observations` SQLite table:
`(series_id, date, value)` with primary key `(series_id, date)`. -/
structure ObsRow where
  series_id : String
  date : Date
  value : String
deriving DecidableEq, Repr

/-- The `realtime_observations` table, as the list of its rows. -/
abbrev ObsTable := List ObsRow

/-- Well-formedness of the observations table: the primary key
`(series_id, date)` admits no duplicate rows. SQLite enforces this; in the
list model it is an invariant. -/
def ObsTable.wf (db : ObsTable) : Prop :=
  (db.map (fun r => (r.series_id, r.date))).Nodup

instance (db : ObsTable) : Decidable db.wf := by
  unfold ObsTable.wf; infer_instance

/-- local_cache.rs `get_observations`, filter on the lower bound:
`since.unwrap_or(NaiveDate::MIN)` followed by `x.date >= since_`.
`NaiveDate::MIN` is below every representable date, so an absent bound
accepts every date. -/
def sinceOk (sinceOpt : Option Date) (d : Date) : Bool :=
  match sinceOpt with
  | none => true
  | some s => decide (s ≤ d)

/-- local_cache.rs `get_observations`, filter on the upper bound:
`until.unwrap_or(NaiveDate::MAX)` followed by `x.date <= until_`.
`NaiveDate::MAX` is above every representable date, so an absent bound
accepts every date. -/
def untilOk (untilOpt : Option Date) (d : Date) : Bool :=
  match untilOpt with
  | none => true
  | some u => decide (d ≤ u)

/-- local_cache.rs `get_observations`: select `date, value` of the rows of
the series, keep the rows within the `[since, until]` bounds, and sort the
kept rows ascending by date. Rust `sort_by(|a, b| a.date.cmp(&b.date))` is
a stable sort; any two stable sorts of a list under the same key compute
the same output list, so it is modelled by the stable `insertionSort`. -/
def getObservations (db : ObsTable) (series_id : String)
    (sinceOpt untilOpt : Option Date) : List RealtimeObservation :=
  let stream := db.filterMap (fun r =>
    if r.series_id == series_id
    then some ({ date := r.date, value := r.value } : RealtimeObservation)
    else none)
  let within_date_bounds := stream.filter (fun x =>
    sinceOk sinceOpt x.date && untilOk untilOpt x.date)
  List.insertionSort (fun a b => a.date ≤ b.date) within_date_bounds

/-- One `insert ... on conflict (series_id, date) do update set value`
statement of local_cache.rs `put_observations`: replace the value if the
key exists, otherwise add the row. -/
def upsertObservation (db : ObsTable) (series_id : String)
    (row : RealtimeObservation) : ObsTable :=
  if db.any (fun r => r.series_id == series_id && r.date == row.date) then
    db.map (fun r =>
      if r.series_id == series_id && r.date == row.date
      then { r with value := row.value }
      else r)
  else
    db ++ [{ series_id := series_id, date := row.date, value := row.value }]

/-- local_cache.rs `put_observations`: upsert each row in order. -/
def putObservations (db : ObsTable) (series_id : String)
    (rows : List RealtimeObservation) : ObsTable :=
  rows.foldl (fun acc row => upsertObservation acc series_id row) db

/-- chrono::DateTime<Utc>, modelled as a timestamp count; only its ordering
is used (`stored.last_updated < series.last_updated`). -/
abbrev Timestamp := Int

/-- entities.rs `FredEconomicDataSeries`, restricted to the four fields the
`economic_data_series` table stores and the handler logic reads
(local_cache.rs `create_tables`, `put_series`, `get_series`). The remaining
serde fields (title, frequency, units, seasonal adjustment, popularity,
notes, realtime echo dates) are never read by the modelled logic. -/
structure FredEconomicDataSeries where
  id : String
  last_updated : Timestamp
  observation_start : Date
  observation_end : Date
deriving DecidableEq, Repr

/-- A SQLite statement failure. The one failure mode the model produces is
the primary-key violation of a plain `insert`. -/
inductive SqlError where
  | uniqueConstraint : SqlError
deriving DecidableEq, Repr

/-- The `economic_data_series` table (primary key `id`), as its rows. -/
abbrev SeriesTable := List FredEconomicDataSeries

/-- local_cache.rs `put_series`: a plain
`insert into economic_data_series (id, last_updated, observation_start,
observation_end) values (?, ?, ?, ?)` with no on-conflict clause. On a
table whose primary key `id` already holds the series id, the insert fails
with a unique-constraint error; otherwise it appends the row. -/
def putSeries (tbl : SeriesTable) (series : FredEconomicDataSeries) :
    Except SqlError SeriesTable :=
  if tbl.any (fun s => s.id == series.id) then .error .uniqueConstraint
  else .ok (tbl ++ [series])

/-- local_cache.rs `get_series`: `select ... where id = ?` with
`fetch_optional` — the first row with the given id, if any. -/
def getSeries (tbl : SeriesTable) (series_id : String) :
    Option FredEconomicDataSeries :=
  tbl.find? (fun s => s.id == series_id)

/-- entities.rs `FredResponseError { error_message, error_code: u16 }` —
the provider error payload the FRED API can return, also with HTTP 200. -/
structure FredResponseError where
  error_message : String
  error_code : Nat
deriving DecidableEq, Repr

/-- entities.rs `FredApiResponse<T>` — the untagged sum a response body
deserializes into in fred.rs: either the typed payload or a provider error
payload. `FredResponseSeriesWithError` and
`FredObservationsResponseWithError` are the same untagged sum at fixed
payload types. -/
inductive FredApiResponse (T : Type) where
  | payload : T → FredApiResponse T
  | errorMessage : FredResponseError → FredApiResponse T
deriving DecidableEq, Repr

/-- entities.rs `ObservationItem`, restricted to the two fields the code
reads (`os.date`, `os.value`); the `realtime_start`/`realtime_end` echo
fields are never read. -/
structure ObservationItem where
  date : Date
  value : String
deriving DecidableEq, Repr

/-- entities.rs `FredResponseObservation`, restricted to the fields the
code reads: `limit` and `observations`. The `realtime_start`,
`realtime_end`, `count` and `offset` fields are marked dead in the source
and never read. -/
structure FredResponseObservation where
  limit : Nat
  observations : List ObservationItem
deriving DecidableEq, Repr

/-- A reqwest::Error. `Error::status()` yields the HTTP status only for
status errors (`error_for_status`, not used here) and certain redirect
errors; connect/timeout/body-decode errors yield `None`. Only that optional
status is observable in the code. -/
structure ReqwestError where
  status : Option Nat
deriving DecidableEq, Repr

/-- One HTTP GET against the observations endpoint: the query parameters
the code varies. `api_key`, `file_type=json` and `sort_order=asc` are
constant on every request and not modelled. `limit` is the requested page
size; `offset = 0` means the `offset` parameter is omitted (the code
appends it only when positive, and the provider defaults it to 0, so the
two are the same request). -/
structure ObsQuery where
  series_id : String
  observation_start : Option Date
  observation_end : Option Date
  realtime_start : Option Date
  realtime_end : Option Date
  limit : Nat
  offset : Nat
deriving DecidableEq, Repr

/-- The wire-level outcome of one observations GET: transport failure, or a
JSON body that is either the observations payload or a provider error
payload (the latter typically delivered with HTTP 200). -/
inductive ObsWire where
  | transportError : ReqwestError → ObsWire
  | body : FredApiResponse FredResponseObservation → ObsWire
deriving DecidableEq, Repr

/-- The upstream observations endpoint, as an oracle from the issued query
to its wire outcome. -/
abbrev ObsOracle := ObsQuery → ObsWire

/-- main.rs line 276: `.json::<FredResponseObservation>()` — the body is
deserialized directly into the payload struct, so a provider error payload
is a serde decode failure: a reqwest::Error whose `status()` is `None`.
There is no error-payload detection on this path. -/
def decodeObservationsPlain :
    FredApiResponse FredResponseObservation →
    Except ReqwestError FredResponseObservation
  | .payload p => .ok p
  | .errorMessage _ => .error { status := none }

/-- fred.rs `FredApiError { status_code, error_message }`. -/
structure FredApiError where
  status_code : Nat
  error_message : Option String
deriving DecidableEq, Repr

/-- http::StatusCode::from_u16(code).unwrap_or(INTERNAL_SERVER_ERROR):
`from_u16` accepts 100..=999, anything else falls back to 500. -/
def statusFromU16 (code : Nat) : Nat :=
  if 100 ≤ code ∧ code ≤ 999 then code else 500

/-- fred.rs `impl<T> From<FredApiResponse<T>> for Result<T, FredApiError>`:
a provider error payload becomes a typed `FredApiError` carrying
`from_u16(error_code).unwrap_or(500)` as its status code; a payload is
success. -/
def fredApiResultOfResponse {T : Type} :
    FredApiResponse T → Except FredApiError T
  | .errorMessage e =>
      .error { status_code := statusFromU16 e.error_code,
               error_message := some e.error_message }
  | .payload t => .ok t

/-- fred.rs `impl From<reqwest::Error> for FredApiError`: status code from
`value.status().unwrap_or(500)`; the message is `value.to_string()`, whose
concrete text the model does not track. -/
def fredApiErrorOfReqwest (e : ReqwestError) : FredApiError :=
  { status_code := e.status.getD 500, error_message := some "reqwest error" }

/-- The query built by one iteration of the pagination loop (both main.rs
and fred.rs build the same URL): the fixed parameters of the call plus the
constant `limit=10000` and the current offset. -/
def paginationQuery (series_id : String)
    (observation_start observation_end realtime_start realtime_end :
      Option Date) (offset : Nat) : ObsQuery :=
  { series_id := series_id,
    observation_start := observation_start,
    observation_end := observation_end,
    realtime_start := realtime_start,
    realtime_end := realtime_end,
    limit := 10000,
    offset := offset }

/-- main.rs lines 240-288: the pagination `loop` of
`request_observations_from_fred`, with fuel (`none` = out of fuel). State
per iteration: the current `offset`, the accumulated `observations`, and
(instrumentation) the trace of queries issued so far. Each iteration issues
one GET; a transport or decode failure aborts with that reqwest error;
otherwise the page rows are appended and, when the page holds at least
`output.limit` rows, the loop repeats with the offset advanced by the page
length, else it returns the accumulated rows. -/
def mainFetchPages (oracle : ObsOracle) (series_id : String)
    (observation_start observation_end realtime_start realtime_end :
      Option Date) :
    Nat → Nat → List RealtimeObservation → List ObsQuery →
    Option (List ObsQuery × Except ReqwestError (List RealtimeObservation))
  | 0, _, _, _ => none
  | fuel + 1, offset, acc, trace =>
    let q := paginationQuery series_id observation_start observation_end
      realtime_start realtime_end offset
    let trace2 := trace ++ [q]
    match oracle q with
    | .transportError e => some (trace2, .error e)
    | .body b =>
      match decodeObservationsPlain b with
      | .error e => some (trace2, .error e)
      | .ok output =>
        let acc2 := acc ++ output.observations.map (fun os =>
          ({ date := os.date, value := os.value } : RealtimeObservation))
        if output.limit ≤ output.observations.length then
          mainFetchPages oracle series_id observation_start observation_end
            realtime_start realtime_end fuel
            (offset + output.observations.length) acc2 trace2
        else
          some (trace2, .ok acc2)

/-- main.rs `request_observations_from_fred`: the pagination loop started
at offset 0 with empty accumulator. -/
def requestObservationsFromFredMain (oracle : ObsOracle) (fuel : Nat)
    (series_id : String)
    (observation_start observation_end realtime_start realtime_end :
      Option Date) :
    Option (List ObsQuery × Except ReqwestError (List RealtimeObservation)) :=
  mainFetchPages oracle series_id observation_start observation_end
    realtime_start realtime_end fuel 0 [] []

/-- fred.rs lines 102-156: the pagination loop of the fred.rs
`request_observations_from_fred` variant. Identical to the main.rs loop
except that the body is deserialized as `FredApiResponse`, so a provider
error payload is detected and converted into a typed `FredApiError`
carrying the provider error code, and transport errors are converted via
`From<reqwest::Error>`. -/
def fredFetchPages (oracle : ObsOracle) (series_id : String)
    (observation_start observation_end realtime_start realtime_end :
      Option Date) :
    Nat → Nat → List RealtimeObservation → List ObsQuery →
    Option (List ObsQuery × Except FredApiError (List RealtimeObservation))
  | 0, _, _, _ => none
  | fuel + 1, offset, acc, trace =>
    let q := paginationQuery series_id observation_start observation_end
      realtime_start realtime_end offset
    let trace2 := trace ++ [q]
    match oracle q with
    | .transportError e => some (trace2, .error (fredApiErrorOfReqwest e))
    | .body b =>
      match fredApiResultOfResponse b with
      | .error e => some (trace2, .error e)
      | .ok fred_response =>
        let acc2 := acc ++ fred_response.observations.map (fun os =>
          ({ date := os.date, value := os.value } : RealtimeObservation))
        if fred_response.limit ≤ fred_response.observations.length then
          fredFetchPages oracle series_id observation_start observation_end
            realtime_start realtime_end fuel
            (offset + fred_response.observations.length) acc2 trace2
        else
          some (trace2, .ok acc2)

/-- fred.rs `request_observations_from_fred`: its loop started at offset 0
with empty accumulator. -/
def requestObservationsFromFredRs (oracle : ObsOracle) (fuel : Nat)
    (series_id : String)
    (observation_start observation_end realtime_start realtime_end :
      Option Date) :
    Option (List ObsQuery × Except FredApiError (List RealtimeObservation)) :=
  fredFetchPages oracle series_id observation_start observation_end
    realtime_start realtime_end fuel 0 [] []

/-- entities.rs `FredResponseSeries`, restricted to the field the code
reads: `seriess`. The `realtime_start`/`realtime_end` echo fields are never
read. -/
structure FredResponseSeries where
  seriess : List FredEconomicDataSeries
deriving DecidableEq, Repr

/-- The wire-level outcome of the single series GET: transport failure, or
a JSON body that is either the series payload or a provider error payload
(`FredResponseSeriesWithError` is this untagged sum). -/
inductive SeriesWire where
  | transportError : ReqwestError → SeriesWire
  | body : FredApiResponse FredResponseSeries → SeriesWire
deriving DecidableEq, Repr

/-- An HTTP status code, as the u16 it wraps. -/
abbrev StatusCode := Nat

/-- main.rs `request_series_from_fred`: one GET; a transport or decode
failure maps to `e.status().unwrap_or(500)`; a provider error payload in
the body maps to `StatusCode::from_u16(e.error_code).unwrap_or(500)`; a
series payload is success. -/
def requestSeriesFromFred (wire : SeriesWire) :
    Except StatusCode FredResponseSeries :=
  match wire with
  | .transportError e => .error (e.status.getD 500)
  | .body (.errorMessage e) => .error (statusFromU16 e.error_code)
  | .body (.payload s) => .ok s

/-- Outcome of one `/v0/series` request: the HTTP result, the series table
after the request, and (instrumentation) the `put_series` calls attempted. -/
structure SeriesOutcome where
  result : Except StatusCode FredEconomicDataSeries
  seriesDb : SeriesTable
  seriesWrites : List FredEconomicDataSeries
deriving Repr

/-- main.rs `get_series_handler`: fetch the series from upstream (mapping
failures to their status); 404 when `seriess` is empty; read the stored
record for the requested id; only when a stored record exists and its
`last_updated` is strictly older than the fetched one, attempt
`put_series` (whose failure maps to 500); finally return the fetched
series. -/
def getSeriesHandler (wire : SeriesWire) (series_id : String)
    (seriesDb : SeriesTable) : SeriesOutcome :=
  match requestSeriesFromFred wire with
  | .error sc =>
    { result := .error sc, seriesDb := seriesDb, seriesWrites := [] }
  | .ok series_response =>
    match series_response.seriess.head? with
    | none =>
      { result := .error 404, seriesDb := seriesDb, seriesWrites := [] }
    | some series =>
      match getSeries seriesDb series_id with
      | some stored_series =>
        if stored_series.last_updated < series.last_updated then
          match putSeries seriesDb series with
          | .error _ =>
            { result := .error 500, seriesDb := seriesDb,
              seriesWrites := [series] }
          | .ok db2 =>
            { result := .ok series, seriesDb := db2,
              seriesWrites := [series] }
        else
          { result := .ok series, seriesDb := seriesDb, seriesWrites := [] }
      | none =>
        { result := .ok series, seriesDb := seriesDb, seriesWrites := [] }

/-- entities.rs `GetObservationsParams`: the query parameters of
`/v0/observations`. -/
structure GetObservationsParams where
  series_id : String
  observation_start : Option Date
  observation_end : Option Date
  realtime_start : Option Date
  realtime_end : Option Date
deriving DecidableEq, Repr

/-- Outcome of one `/v0/observations` request: the HTTP result, the
observations table after the request, and (instrumentation) the upstream
queries issued, the cache range reads, and the `put_observations` calls
performed. -/
structure HandlerOutcome where
  result : Except StatusCode (List RealtimeObservation)
  db : ObsTable
  upstreamCalls : List ObsQuery
  cacheReads : List (String × Option Date × Option Date)
  cacheWrites : List (String × List RealtimeObservation)
deriving Repr

/-- main.rs lines 162-180 (left side of the partial-hit arm): when
`observation_start` is given and the earliest cached row is strictly after
it, fetch `[observation_start, first.date - 1 day]`; a fetch failure maps
to 500; a non-empty fetch result is kept and flags `is_incomplete`.
Returns the trace of queries issued and, on success, the rows appended to
`observations` together with the `is_incomplete` flag this step set. -/
def leftGapStep (oracle : ObsOracle) (fuel : Nat)
    (params : GetObservationsParams) (first_item : RealtimeObservation) :
    Option (List ObsQuery ×
      Except StatusCode (List RealtimeObservation × Bool)) :=
  match params.observation_start with
  | none => some ([], .ok ([], false))
  | some observation_start =>
    if observation_start < first_item.date then
      match requestObservationsFromFredMain oracle fuel params.series_id
          (some observation_start) (some (first_item.date - 1))
          none none with
      | none => none
      | some (tr, .error _) => some (tr, .error 500)
      | some (tr, .ok more) =>
        if 0 < more.length then some (tr, .ok (more, true))
        else some (tr, .ok (more, false))
    else some ([], .ok ([], false))

/-- main.rs lines 182-201 (right side of the partial-hit arm): only when
`is_incomplete` is still false and `observation_end` is given and the
latest cached row is strictly before it, fetch
`[last.date + 1 day, observation_end]`; a fetch failure maps to 500; a
non-empty fetch result is kept and flags `is_incomplete`. -/
def rightGapStep (oracle : ObsOracle) (fuel : Nat)
    (params : GetObservationsParams) (last_item : RealtimeObservation)
    (is_incomplete : Bool) :
    Option (List ObsQuery ×
      Except StatusCode (List RealtimeObservation × Bool)) :=
  if is_incomplete then some ([], .ok ([], false))
  else
    match params.observation_end with
    | none => some ([], .ok ([], false))
    | some observation_end =>
      if last_item.date < observation_end then
        match requestObservationsFromFredMain oracle fuel params.series_id
            (some (last_item.date + 1)) (some observation_end)
            none none with
        | none => none
        | some (tr, .error _) => some (tr, .error 500)
        | some (tr, .ok more) =>
          if 0 < more.length then some (tr, .ok (more, true))
          else some (tr, .ok (more, false))
      else some ([], .ok ([], false))

/-- main.rs `e.status()` mapping used by the cache-miss fetch and the full
re-fetch: forward the reqwest status when present, else 503. -/
def statusOr503 (e : ReqwestError) : StatusCode :=
  match e.status with
  | some status => status
  | none => 503

/-- main.rs lines 141-156 (cache-miss arm of `get_observations_handler`):
one full-range fetch; a failure maps to its status (else 503); on success
the fetched rows are the answer and are written through to the cache. -/
def obsMissBranch (oracle : ObsOracle) (fuel : Nat)
    (params : GetObservationsParams) (db : ObsTable)
    (reads : List (String × Option Date × Option Date)) :
    Option HandlerOutcome :=
  match requestObservationsFromFredMain oracle fuel params.series_id
      params.observation_start params.observation_end none none with
  | none => none
  | some (tr, .error e) =>
    some { result := .error (statusOr503 e), db := db, upstreamCalls := tr,
           cacheReads := reads, cacheWrites := [] }
  | some (tr, .ok observations) =>
    some { result := .ok observations,
           db := putObservations db params.series_id observations,
           upstreamCalls := tr, cacheReads := reads,
           cacheWrites := [(params.series_id, observations)] }

/-- main.rs lines 159-218 (partial-hit arm of `get_observations_handler`):
run the left-gap step, append the cached rows, run the right-gap step
(skipped once incomplete), and if either gap produced data, replace the
assembled rows by one full-range re-fetch (failure maps to status else
503). The rows finally held are written through to the cache and
returned. -/
def obsHitBranch (oracle : ObsOracle) (fuel : Nat)
    (params : GetObservationsParams) (db : ObsTable)
    (cached : List RealtimeObservation)
    (first_item last_item : RealtimeObservation)
    (reads : List (String × Option Date × Option Date)) :
    Option HandlerOutcome :=
  match leftGapStep oracle fuel params first_item with
  | none => none
  | some (tr1, .error sc) =>
    some { result := .error sc, db := db, upstreamCalls := tr1,
           cacheReads := reads, cacheWrites := [] }
  | some (tr1, .ok (leftRows, inc1)) =>
    let observations1 := leftRows ++ cached
    match rightGapStep oracle fuel params last_item inc1 with
    | none => none
    | some (tr2, .error sc) =>
      some { result := .error sc, db := db, upstreamCalls := tr1 ++ tr2,
             cacheReads := reads, cacheWrites := [] }
    | some (tr2, .ok (rightRows, inc2)) =>
      let observations2 := observations1 ++ rightRows
      if inc1 || inc2 then
        match requestObservationsFromFredMain oracle fuel params.series_id
            params.observation_start params.observation_end none none with
        | none => none
        | some (tr3, .error e) =>
          some { result := .error (statusOr503 e), db := db,
                 upstreamCalls := tr1 ++ tr2 ++ tr3, cacheReads := reads,
                 cacheWrites := [] }
        | some (tr3, .ok observations3) =>
          some { result := .ok observations3,
                 db := putObservations db params.series_id observations3,
                 upstreamCalls := tr1 ++ tr2 ++ tr3, cacheReads := reads,
                 cacheWrites := [(params.series_id, observations3)] }
      else
        some { result := .ok observations2,
               db := putObservations db params.series_id observations2,
               upstreamCalls := tr1 ++ tr2, cacheReads := reads,
               cacheWrites := [(params.series_id, observations2)] }

/-- main.rs `get_observations_handler`: when a `realtime_*` parameter is
present, serve one direct upstream fetch (failure maps to 500) and return
without touching the cache; otherwise read the cached rows restricted to
the requested range and dispatch on their first/last row — the cache-miss
arm when the restriction is empty, the partial-hit arm otherwise. -/
def getObservationsHandler (oracle : ObsOracle) (fuel : Nat)
    (params : GetObservationsParams) (db : ObsTable) :
    Option HandlerOutcome :=
  if params.realtime_start.isSome || params.realtime_end.isSome then
    match requestObservationsFromFredMain oracle fuel params.series_id
        params.observation_start params.observation_end
        params.realtime_start params.realtime_end with
    | none => none
    | some (tr, .error _) =>
      some { result := .error 500, db := db, upstreamCalls := tr,
             cacheReads := [], cacheWrites := [] }
    | some (tr, .ok fresh) =>
      some { result := .ok fresh, db := db, upstreamCalls := tr,
             cacheReads := [], cacheWrites := [] }
  else
    let cached := getObservations db params.series_id
      params.observation_start params.observation_end
    let reads := [(params.series_id, params.observation_start,
      params.observation_end)]
    match cached.head?, cached.getLast? with
    | some first_item, some last_item =>
      obsHitBranch oracle fuel params db cached first_item last_item reads
    | _, _ => obsMissBranch oracle fuel params db reads

/-- Strictly ascending by date on adjacent pairs — the ordering claim the
spec states for reconciliation results. -/
def StrictlyDateSorted (rows : List RealtimeObservation) : Prop :=
  List.Chain' (fun a b => a.date < b.date) rows

/-- Rows selected from a well-formed table for one series have pairwise
distinct dates. -/
theorem filterMap_dates_nodup (db : ObsTable) (series_id : String)
    (hwf : db.wf) :
    ((db.filterMap (fun r =>
      if r.series_id == series_id
      then some ({ date := r.date, value := r.value } : RealtimeObservation)
      else none)).map (fun x => x.date)).Nodup := by
  induction db with
  | nil => simp
  | cons r rest ih =>
    unfold ObsTable.wf at hwf
    simp only [List.map_cons, List.nodup_cons] at hwf
    obtain ⟨hnotmem, hrest⟩ := hwf
    by_cases hr : r.series_id == series_id
    · simp only [List.filterMap_cons, hr, if_pos, List.map_cons,
        List.nodup_cons]
      refine ⟨?_, ih hrest⟩
      intro hmem
      simp only [List.mem_map, List.mem_filterMap] at hmem
      obtain ⟨x, ⟨r2, hr2mem, hr2eq⟩, hdate⟩ := hmem
      by_cases hr2 : r2.series_id == series_id
      · simp only [hr2, if_pos] at hr2eq
        apply hnotmem
        have hsid : r2.series_id = r.series_id := by
          have h1 : r2.series_id = series_id := by
            simpa using hr2
          have h2 : r.series_id = series_id := by
            simpa using hr
          rw [h1, h2]
        have hxdate : x.date = r2.date := by
          cases hr2eq; rfl
        refine List.mem_map.mpr ⟨r2, hr2mem, ?_⟩
        have hd : r2.date = r.date := by rw [← hxdate, hdate]
        rw [hsid, hd]
      · simp only [hr2, if_neg, reduceCtorEq] at hr2eq
        exact absurd hr2eq (by simp)
    · simp only [List.filterMap_cons, hr]
      exact ih hrest

/-- On a well-formed table, `get_observations` returns rows strictly
ascending by date: the sort orders them by `date` and the primary key
forbids two rows of one series on the same date. -/
theorem getObservations_strictlySorted (db : ObsTable) (series_id : String)
    (sinceOpt untilOpt : Option Date) (hwf : db.wf) :
    StrictlyDateSorted (getObservations db series_id sinceOpt untilOpt) := by
  unfold StrictlyDateSorted getObservations
  apply List.Pairwise.chain'
  haveI instTot : IsTotal RealtimeObservation
      (fun a b => a.date ≤ b.date) := ⟨fun a b => le_total a.date b.date⟩
  haveI instTrans : IsTrans RealtimeObservation
      (fun a b => a.date ≤ b.date) :=
    ⟨fun a b c hab hbc => le_trans hab hbc⟩
  have hle0 : List.Sorted (fun a b : RealtimeObservation => a.date ≤ b.date)
      (List.insertionSort (fun a b => a.date ≤ b.date)
        (List.filter (fun x => sinceOk sinceOpt x.date && untilOk untilOpt x.date)
          (db.filterMap (fun r =>
            if r.series_id == series_id
            then some ({ date := r.date, value := r.value } : RealtimeObservation)
            else none)))) :=
    List.sorted_insertionSort (fun a b : RealtimeObservation => a.date ≤ b.date) _
  have hle : List.Pairwise (fun a b : RealtimeObservation => a.date ≤ b.date)
      (List.insertionSort (fun a b => a.date ≤ b.date)
        (List.filter (fun x => sinceOk sinceOpt x.date && untilOk untilOpt x.date)
          (db.filterMap (fun r =>
            if r.series_id == series_id
            then some ({ date := r.date, value := r.value } : RealtimeObservation)
            else none)))) := hle0
  have hnd : (List.map (fun x : RealtimeObservation => x.date)
      (List.insertionSort (fun a b => a.date ≤ b.date)
        (List.filter (fun x => sinceOk sinceOpt x.date && untilOk untilOpt x.date)
          (db.filterMap (fun r =>
            if r.series_id == series_id
            then some ({ date := r.date, value := r.value } : RealtimeObservation)
            else none))))).Nodup := by
    have hbase := filterMap_dates_nodup db series_id hwf
    have hsub : (List.map (fun x : RealtimeObservation => x.date)
        (List.filter (fun x => sinceOk sinceOpt x.date && untilOk untilOpt x.date)
          (db.filterMap (fun r =>
            if r.series_id == series_id
            then some ({ date := r.date, value := r.value } : RealtimeObservation)
            else none)))).Sublist
        (List.map (fun x : RealtimeObservation => x.date)
          (db.filterMap (fun r =>
            if r.series_id == series_id
            then some ({ date := r.date, value := r.value } : RealtimeObservation)
            else none))) :=
      List.Sublist.map _ (List.filter_sublist _)
    have hfil := hsub.nodup hbase
    exact (((List.perm_insertionSort
      (fun a b : RealtimeObservation => a.date ≤ b.date) _).map
      (fun x : RealtimeObservation => x.date)).symm).nodup hfil
  have hne : List.Pairwise (fun a b : RealtimeObservation => a.date ≠ b.date)
      (List.insertionSort (fun a b => a.date ≤ b.date)
        (List.filter (fun x => sinceOk sinceOpt x.date && untilOk untilOpt x.date)
          (db.filterMap (fun r =>
            if r.series_id == series_id
            then some ({ date := r.date, value := r.value } : RealtimeObservation)
            else none)))) :=
    (List.pairwise_map
      (f := fun x : RealtimeObservation => x.date)
      (R := fun a b : Date => a ≠ b)).mp hnd
  exact (hle.and hne).imp (fun h => lt_of_le_of_ne h.1 h.2)

/-- Every row `get_observations` returns is present in the table as a row
of the requested series with the same date and value. -/
theorem getObservations_mem (db : ObsTable) (series_id : String)
    (sinceOpt untilOpt : Option Date) (x : RealtimeObservation)
    (hx : x ∈ getObservations db series_id sinceOpt untilOpt) :
    ({ series_id := series_id, date := x.date, value := x.value } :
      ObsRow) ∈ db := by
  unfold getObservations at hx
  simp only at hx
  rw [List.mem_insertionSort] at hx
  rw [List.mem_filter] at hx
  obtain ⟨hx, _⟩ := hx
  rw [List.mem_filterMap] at hx
  obtain ⟨r, hrmem, hreq⟩ := hx
  by_cases hr : r.series_id == series_id
  · simp only [hr, if_pos, Option.some.injEq] at hreq
    have hsid : r.series_id = series_id := by simpa using hr
    have : ({ series_id := series_id, date := x.date, value := x.value } :
        ObsRow) = r := by
      cases hreq
      cases r
      simp_all
    rw [this]
    exact hrmem
  · simp [hr] at hreq

/-- Upserting a row that is already stored with the same value leaves a
well-formed table unchanged. -/
theorem upsertObservation_mem_noop (db : ObsTable) (series_id : String)
    (x : RealtimeObservation) (hwf : db.wf)
    (hmem : ({ series_id := series_id, date := x.date, value := x.value } :
      ObsRow) ∈ db) :
    upsertObservation db series_id x = db := by
  unfold upsertObservation
  have hany : db.any
      (fun r => r.series_id == series_id && r.date == x.date) = true := by
    rw [List.any_eq_true]
    exact ⟨_, hmem, by simp⟩
  rw [if_pos hany]
  have hcongr : ∀ r ∈ db,
      (if r.series_id == series_id && r.date == x.date
       then { r with value := x.value } else r) = id r := by
    intro r hr
    by_cases hkey : r.series_id == series_id && r.date == x.date
    · have hsid : r.series_id = series_id := by
        have := (Bool.and_eq_true _ _).mp hkey
        simpa using this.1
      have hdate : r.date = x.date := by
        have := (Bool.and_eq_true _ _).mp hkey
        simpa using this.2
      have hrw : r = ({ series_id := series_id, date := x.date, value := x.value } : ObsRow) := by
        apply List.inj_on_of_nodup_map hwf hr hmem
        simp [hsid, hdate]
      simp only [hkey, if_pos, id]
      rw [hrw]
    · simp [hkey]
  rw [List.map_congr_left hcongr, List.map_id]

/-- Writing back rows that are all already stored with their values leaves
a well-formed table unchanged. -/
theorem putObservations_mem_noop (db : ObsTable) (series_id : String)
    (rows : List RealtimeObservation) (hwf : db.wf)
    (hmem : ∀ x ∈ rows,
      ({ series_id := series_id, date := x.date, value := x.value } :
        ObsRow) ∈ db) :
    putObservations db series_id rows = db := by
  unfold putObservations
  induction rows with
  | nil => rfl
  | cons y ys ih =>
    simp only [List.foldl_cons]
    rw [upsertObservation_mem_noop db series_id y hwf
      (hmem y (List.mem_cons_self y ys))]
    exact ih (fun x hx => hmem x (List.mem_cons_of_mem y hx))

/-- Writing back the result of a range read leaves a well-formed table
unchanged: `put_observations` after an exact cache hit is a no-op on the
cache state. -/
theorem putObservations_getObservations_noop (db : ObsTable)
    (series_id : String) (sinceOpt untilOpt : Option Date) (hwf : db.wf) :
    putObservations db series_id
      (getObservations db series_id sinceOpt untilOpt) = db :=
  putObservations_mem_noop db series_id _ hwf
    (fun x hx => getObservations_mem db series_id sinceOpt untilOpt x hx)

/-- The pagination loop only ever grows its trace of issued queries. -/
theorem mainFetchPages_trace_mono (oracle : ObsOracle) (series_id : String)
    (os oe rs re : Option Date) :
    ∀ fuel offset acc tr tr2 res,
      mainFetchPages oracle series_id os oe rs re fuel offset acc tr =
        some (tr2, res) →
      ∀ q ∈ tr, q ∈ tr2 := by
  intro fuel
  induction fuel with
  | zero =>
    intro offset acc tr tr2 res h
    simp [mainFetchPages] at h
  | succ n ih =>
    intro offset acc tr tr2 res h q hq
    rw [mainFetchPages] at h
    simp only at h
    cases horacle : oracle (paginationQuery series_id os oe rs re offset) with
    | transportError e =>
      rw [horacle] at h
      simp only [Option.some.injEq, Prod.mk.injEq] at h
      rw [← h.1]
      exact List.mem_append_left _ hq
    | body b =>
      rw [horacle] at h
      cases b with
      | errorMessage e =>
        simp only [decodeObservationsPlain, Option.some.injEq,
          Prod.mk.injEq] at h
        rw [← h.1]
        exact List.mem_append_left _ hq
      | payload output =>
        simp only [decodeObservationsPlain] at h
        by_cases hlen : output.limit ≤ output.observations.length
        · rw [if_pos hlen] at h
          exact ih _ _ _ _ _ h q (List.mem_append_left _ hq)
        · rw [if_neg hlen] at h
          simp only [Option.some.injEq, Prod.mk.injEq] at h
          rw [← h.1]
          exact List.mem_append_left _ hq

/-- A successful-or-failed fetch (not out of fuel) issued its first query:
the one at offset 0 with the fixed parameters. -/
theorem requestObservationsFromFredMain_first_call (oracle : ObsOracle)
    (fuel : Nat) (series_id : String) (os oe rs re : Option Date)
    (tr2 : List ObsQuery)
    (res : Except ReqwestError (List RealtimeObservation))
    (h : requestObservationsFromFredMain oracle fuel series_id os oe rs re =
      some (tr2, res)) :
    paginationQuery series_id os oe rs re 0 ∈ tr2 := by
  unfold requestObservationsFromFredMain at h
  cases fuel with
  | zero => simp [mainFetchPages] at h
  | succ n =>
    rw [mainFetchPages] at h
    simp only at h
    cases horacle : oracle (paginationQuery series_id os oe rs re 0) with
    | transportError e =>
      rw [horacle] at h
      simp only [Option.some.injEq, Prod.mk.injEq] at h
      rw [← h.1]
      simp
    | body b =>
      rw [horacle] at h
      cases b with
      | errorMessage e =>
        simp only [decodeObservationsPlain, Option.some.injEq,
          Prod.mk.injEq] at h
        rw [← h.1]
        simp
      | payload output =>
        simp only [decodeObservationsPlain] at h
        by_cases hlen : output.limit ≤ output.observations.length
        · rw [if_pos hlen] at h
          exact mainFetchPages_trace_mono oracle series_id os oe rs re
            _ _ _ _ _ _ h _ (by simp)
        · rw [if_neg hlen] at h
          simp only [Option.some.injEq, Prod.mk.injEq] at h
          rw [← h.1]
          simp

/-- Every query the pagination loop issues carries the fixed parameters of
the call (series id, date bounds, realtime bounds, the constant page size
10000) and some offset. -/
theorem mainFetchPages_calls_shape (oracle : ObsOracle) (series_id : String)
    (os oe rs re : Option Date) :
    ∀ fuel offset acc tr tr2 res,
      mainFetchPages oracle series_id os oe rs re fuel offset acc tr =
        some (tr2, res) →
      ∀ q ∈ tr2, q ∈ tr ∨
        ∃ off2, q = paginationQuery series_id os oe rs re off2 := by
  intro fuel
  induction fuel with
  | zero =>
    intro offset acc tr tr2 res h
    simp [mainFetchPages] at h
  | succ n ih =>
    intro offset acc tr tr2 res h q hq
    rw [mainFetchPages] at h
    simp only at h
    cases horacle : oracle (paginationQuery series_id os oe rs re offset) with
    | transportError e =>
      rw [horacle] at h
      simp only [Option.some.injEq, Prod.mk.injEq] at h
      rw [← h.1] at hq
      rcases List.mem_append.mp hq with hin | hnew
      · exact Or.inl hin
      · exact Or.inr ⟨offset, by simpa using hnew⟩
    | body b =>
      rw [horacle] at h
      cases b with
      | errorMessage e =>
        simp only [decodeObservationsPlain, Option.some.injEq,
          Prod.mk.injEq] at h
        rw [← h.1] at hq
        rcases List.mem_append.mp hq with hin | hnew
        · exact Or.inl hin
        · exact Or.inr ⟨offset, by simpa using hnew⟩
      | payload output =>
        simp only [decodeObservationsPlain] at h
        by_cases hlen : output.limit ≤ output.observations.length
        · rw [if_pos hlen] at h
          rcases ih _ _ _ _ _ h q hq with hin | hnew
          · rcases List.mem_append.mp hin with hin2 | hnew2
            · exact Or.inl hin2
            · exact Or.inr ⟨offset, by simpa using hnew2⟩
          · exact Or.inr hnew
        · rw [if_neg hlen] at h
          simp only [Option.some.injEq, Prod.mk.injEq] at h
          rw [← h.1] at hq
          rcases List.mem_append.mp hq with hin | hnew
          · exact Or.inl hin
          · exact Or.inr ⟨offset, by simpa using hnew⟩

/-- Rows of one response page, as the loop copies them
(`RealtimeObservation { date: os.date, value: os.value }`). -/
def pageRows (p : FredResponseObservation) : List RealtimeObservation :=
  p.observations.map (fun os =>
    ({ date := os.date, value := os.value } : RealtimeObservation))

/-- Spec-side description of the cursor pagination, following the spec
wording: request a fixed page size of 10000 rows; if the number of rows
returned equals or exceeds that page size, issue a follow-up request with
an offset advanced by the total number of rows received so far; stop when
a response returns fewer rows than the page size; concatenate rows across
pages in the order received. `PaginationSpec oracle sid os oe rs re total
rows queries` says: starting with `total` rows already received (offset
`total`), the oracle pages yield exactly `rows` via exactly the requests
`queries`. -/
inductive PaginationSpec (oracle : ObsOracle) (series_id : String)
    (os oe rs re : Option Date) :
    Nat → List RealtimeObservation → List ObsQuery → Prop where
  | lastPage : ∀ total p,
      oracle (paginationQuery series_id os oe rs re total) =
        .body (.payload p) →
      p.observations.length < 10000 →
      PaginationSpec oracle series_id os oe rs re total (pageRows p)
        [paginationQuery series_id os oe rs re total]
  | morePages : ∀ total p rest qs,
      oracle (paginationQuery series_id os oe rs re total) =
        .body (.payload p) →
      10000 ≤ p.observations.length →
      PaginationSpec oracle series_id os oe rs re
        (total + p.observations.length) rest qs →
      PaginationSpec oracle series_id os oe rs re total
        (pageRows p ++ rest)
        (paginationQuery series_id os oe rs re total :: qs)

/-- Loop-invariant form of the pagination refinement: on an oracle whose
payload responses echo the requested page size 10000 in their `limit`
field (as the FRED API does), a successful run of the loop from offset
`offset` with accumulated rows `acc` and trace `tr` extends `acc` and `tr`
exactly as `PaginationSpec` describes. -/
theorem mainFetchPages_paginationSpec (oracle : ObsOracle)
    (series_id : String) (os oe rs re : Option Date)
    (hlimit : ∀ q p, oracle q = .body (.payload p) → p.limit = 10000) :
    ∀ fuel offset acc tr tr2 rows,
      mainFetchPages oracle series_id os oe rs re fuel offset acc tr =
        some (tr2, .ok rows) →
      ∃ suffix rows2, tr2 = tr ++ suffix ∧ rows = acc ++ rows2 ∧
        PaginationSpec oracle series_id os oe rs re offset rows2 suffix := by
  intro fuel
  induction fuel with
  | zero =>
    intro offset acc tr tr2 rows h
    simp [mainFetchPages] at h
  | succ n ih =>
    intro offset acc tr tr2 rows h
    rw [mainFetchPages] at h
    simp only at h
    cases horacle : oracle (paginationQuery series_id os oe rs re offset) with
    | transportError e =>
      rw [horacle] at h
      simp at h
    | body b =>
      rw [horacle] at h
      cases b with
      | errorMessage e =>
        simp [decodeObservationsPlain] at h
      | payload output =>
        simp only [decodeObservationsPlain] at h
        have hol : output.limit = 10000 := hlimit _ _ horacle
        by_cases hlen : output.limit ≤ output.observations.length
        · rw [if_pos hlen] at h
          obtain ⟨suffix, rows2, htr, hrows, hspec⟩ := ih _ _ _ _ _ h
          refine ⟨paginationQuery series_id os oe rs re offset :: suffix,
            pageRows output ++ rows2, ?_, ?_, ?_⟩
          · rw [htr]
            simp
          · rw [hrows]
            unfold pageRows
            simp
          · exact PaginationSpec.morePages offset output rows2 suffix
              horacle (by rw [← hol]; exact hlen) hspec
        · rw [if_neg hlen] at h
          simp only [Option.some.injEq, Prod.mk.injEq,
            Except.ok.injEq] at h
          obtain ⟨htr, hrows⟩ := h
          refine ⟨[paginationQuery series_id os oe rs re offset],
            pageRows output, by rw [← htr], ?_, ?_⟩
          · rw [← hrows]
            unfold pageRows
            simp
          · exact PaginationSpec.lastPage offset output horacle
              (by rw [← hol]; exact lt_of_not_le hlen)

/-- A left-gap step that did not flag `is_incomplete` contributed no rows. -/
theorem leftGapStep_ok_false (oracle : ObsOracle) (fuel : Nat)
    (params : GetObservationsParams) (first_item : RealtimeObservation)
    (tr : List ObsQuery) (rows : List RealtimeObservation)
    (h : leftGapStep oracle fuel params first_item =
      some (tr, .ok (rows, false))) : rows = [] := by
  unfold leftGapStep at h
  split at h
  · simp only [Option.some.injEq, Prod.mk.injEq, Except.ok.injEq] at h
    exact h.2.1.symm
  · split at h
    · split at h
      · exact absurd h (by simp)
      · simp at h
      · rename_i more heq
        split at h
        · simp at h
        · simp only [Option.some.injEq, Prod.mk.injEq, Except.ok.injEq] at h
          rename_i hlen
          rw [← h.2.1]
          have : more.length = 0 := by omega
          exact List.eq_nil_of_length_eq_zero this
    · simp only [Option.some.injEq, Prod.mk.injEq, Except.ok.injEq] at h
      exact h.2.1.symm

/-- A right-gap step that did not flag `is_incomplete` contributed no
rows. -/
theorem rightGapStep_ok_false (oracle : ObsOracle) (fuel : Nat)
    (params : GetObservationsParams) (last_item : RealtimeObservation)
    (inc : Bool) (tr : List ObsQuery) (rows : List RealtimeObservation)
    (h : rightGapStep oracle fuel params last_item inc =
      some (tr, .ok (rows, false))) : rows = [] := by
  unfold rightGapStep at h
  split at h
  · simp only [Option.some.injEq, Prod.mk.injEq, Except.ok.injEq] at h
    exact h.2.1.symm
  · split at h
    · simp only [Option.some.injEq, Prod.mk.injEq, Except.ok.injEq] at h
      exact h.2.1.symm
    · split at h
      · split at h
        · exact absurd h (by simp)
        · simp at h
        · rename_i more heq
          split at h
          · simp at h
          · simp only [Option.some.injEq, Prod.mk.injEq,
              Except.ok.injEq] at h
            rename_i hlen
            rw [← h.2.1]
            have : more.length = 0 := by omega
            exact List.eq_nil_of_length_eq_zero this
      · simp only [Option.some.injEq, Prod.mk.injEq, Except.ok.injEq] at h
        exact h.2.1.symm

/-- The cache-miss arm returns rows exactly when the full-range fetch
returned them. -/
theorem obsMissBranch_ok_shape (oracle : ObsOracle) (fuel : Nat)
    (params : GetObservationsParams) (db : ObsTable)
    (reads : List (String × Option Date × Option Date))
    (o : HandlerOutcome) (rows : List RealtimeObservation)
    (h : obsMissBranch oracle fuel params db reads = some o)
    (hok : o.result = .ok rows) :
    ∃ tr, requestObservationsFromFredMain oracle fuel params.series_id
      params.observation_start params.observation_end none none =
      some (tr, .ok rows) := by
  unfold obsMissBranch at h
  split at h
  · exact absurd h (by simp)
  · rename_i tr e heq
    injection h with h2
    rw [← h2] at hok
    simp at hok
  · rename_i tr observations heq
    injection h with h2
    rw [← h2] at hok
    simp only [Except.ok.injEq] at hok
    exact ⟨tr, by rw [heq, hok]⟩

/-- An error from the cache-miss arm leaves the cache untouched. -/
theorem obsMissBranch_error_frame (oracle : ObsOracle) (fuel : Nat)
    (params : GetObservationsParams) (db : ObsTable)
    (reads : List (String × Option Date × Option Date))
    (o : HandlerOutcome) (sc : StatusCode)
    (h : obsMissBranch oracle fuel params db reads = some o)
    (he : o.result = .error sc) : o.db = db ∧ o.cacheWrites = [] := by
  unfold obsMissBranch at h
  split at h
  · exact absurd h (by simp)
  · injection h with h2
    rw [← h2]
    exact ⟨rfl, rfl⟩
  · injection h with h2
    rw [← h2] at he
    simp at he

/-- Rows returned by the partial-hit arm are either exactly the cached rows
(no gap produced data) or exactly the rows of the one full-range re-fetch;
never a stitching of cached rows with gap rows. -/
theorem obsHitBranch_ok_shape (oracle : ObsOracle) (fuel : Nat)
    (params : GetObservationsParams) (db : ObsTable)
    (cached : List RealtimeObservation)
    (first_item last_item : RealtimeObservation)
    (reads : List (String × Option Date × Option Date))
    (o : HandlerOutcome) (rows : List RealtimeObservation)
    (h : obsHitBranch oracle fuel params db cached first_item last_item
      reads = some o)
    (hok : o.result = .ok rows) :
    rows = cached ∨
      ∃ tr, requestObservationsFromFredMain oracle fuel params.series_id
        params.observation_start params.observation_end none none =
        some (tr, .ok rows) := by
  unfold obsHitBranch at h
  rcases hleft : leftGapStep oracle fuel params first_item with - | ⟨trL, resL⟩
  · simp [hleft] at h
  rcases resL with scL | ⟨leftRows, incL⟩
  · simp only [hleft, Option.some.injEq] at h
    rw [← h] at hok
    simp at hok
  rcases hright : rightGapStep oracle fuel params last_item incL
    with - | ⟨trR, resR⟩
  · simp [hleft, hright] at h
  rcases resR with scR | ⟨rightRows, incR⟩
  · simp only [hleft, hright, Option.some.injEq] at h
    rw [← h] at hok
    simp at hok
  by_cases hinc : (incL || incR) = true
  · rcases hfetch : requestObservationsFromFredMain oracle fuel
        params.series_id params.observation_start params.observation_end
        none none with - | ⟨tr3, res3⟩
    · simp [hleft, hright, hinc, hfetch] at h
    rcases res3 with e3 | observations3
    · simp only [hleft, hright, hinc, if_true, hfetch,
        Option.some.injEq] at h
      rw [← h] at hok
      simp at hok
    · simp only [hleft, hright, hinc, if_true, hfetch,
        Option.some.injEq] at h
      rw [← h] at hok
      simp only [Except.ok.injEq] at hok
      exact Or.inr ⟨tr3, by rw [← hok]⟩
  · have hincL : incL = false := by
      cases incL <;> simp_all
    have hincR : incR = false := by
      cases incR <;> simp_all
    rw [hincL] at hleft
    rw [hincL, hincR] at hright
    simp only [hleft, hright, Bool.or_self, Bool.false_eq_true,
      if_false, Option.some.injEq] at h
    rw [← h] at hok
    simp only [Except.ok.injEq] at hok
    have hl := leftGapStep_ok_false oracle fuel params first_item
      trL leftRows hleft
    have hr := rightGapStep_ok_false oracle fuel params last_item
      false trR rightRows hright
    left
    rw [← hok, hl, hr]
    simp

/-- An error from the partial-hit arm leaves the cache untouched: the
write-through happens only after every fetch succeeded. -/
theorem obsHitBranch_error_frame (oracle : ObsOracle) (fuel : Nat)
    (params : GetObservationsParams) (db : ObsTable)
    (cached : List RealtimeObservation)
    (first_item last_item : RealtimeObservation)
    (reads : List (String × Option Date × Option Date))
    (o : HandlerOutcome) (sc : StatusCode)
    (h : obsHitBranch oracle fuel params db cached first_item last_item
      reads = some o)
    (he : o.result = .error sc) : o.db = db ∧ o.cacheWrites = [] := by
  unfold obsHitBranch at h
  rcases hleft : leftGapStep oracle fuel params first_item with - | ⟨trL, resL⟩
  · simp [hleft] at h
  rcases resL with scL | ⟨leftRows, incL⟩
  · simp only [hleft, Option.some.injEq] at h
    rw [← h]
    exact ⟨rfl, rfl⟩
  rcases hright : rightGapStep oracle fuel params last_item incL
    with - | ⟨trR, resR⟩
  · simp [hleft, hright] at h
  rcases resR with scR | ⟨rightRows, incR⟩
  · simp only [hleft, hright, Option.some.injEq] at h
    rw [← h]
    exact ⟨rfl, rfl⟩
  by_cases hinc : (incL || incR) = true
  · rcases hfetch : requestObservationsFromFredMain oracle fuel
        params.series_id params.observation_start params.observation_end
        none none with - | ⟨tr3, res3⟩
    · simp [hleft, hright, hinc, hfetch] at h
    rcases res3 with e3 | observations3
    · simp only [hleft, hright, hinc, if_true, hfetch,
        Option.some.injEq] at h
      rw [← h]
      exact ⟨rfl, rfl⟩
    · simp only [hleft, hright, hinc, if_true, hfetch,
        Option.some.injEq] at h
      rw [← h] at he
      simp at he
  · have hincL : incL = false := by
      cases incL <;> simp_all
    have hincR : incR = false := by
      cases incR <;> simp_all
    rw [hincL] at hleft
    rw [hincL, hincR] at hright
    simp only [hleft, hright, Bool.or_self, Bool.false_eq_true,
      if_false, Option.some.injEq] at h
    rw [← h] at he
    simp at he

/-- Every query issued by one call of the main.rs fetch carries exactly the
fixed parameters of that call and the constant page size 10000. -/
theorem requestMain_calls_fields (oracle : ObsOracle) (fuel : Nat)
    (series_id : String) (os oe rs re : Option Date) (tr : List ObsQuery)
    (res : Except ReqwestError (List RealtimeObservation))
    (h : requestObservationsFromFredMain oracle fuel series_id os oe rs re =
      some (tr, res)) :
    ∀ q ∈ tr, q.series_id = series_id ∧ q.observation_start = os ∧
      q.observation_end = oe ∧ q.realtime_start = rs ∧
      q.realtime_end = re ∧ q.limit = 10000 := by
  intro q hq
  unfold requestObservationsFromFredMain at h
  rcases mainFetchPages_calls_shape oracle series_id os oe rs re fuel 0 [] []
    tr res h q hq with hin | ⟨off2, hq2⟩
  · simp at hin
  · rw [hq2]
    exact ⟨rfl, rfl, rfl, rfl, rfl, rfl⟩

/-- Realtime branch of the handler: the cache is neither read nor written,
its state is returned unchanged, and every upstream query carries the
request parameters including the realtime bounds. -/
theorem getObservationsHandler_realtime_frame (oracle : ObsOracle)
    (fuel : Nat) (params : GetObservationsParams) (db : ObsTable)
    (o : HandlerOutcome)
    (hrt : (params.realtime_start.isSome || params.realtime_end.isSome) =
      true)
    (h : getObservationsHandler oracle fuel params db = some o) :
    o.db = db ∧ o.cacheReads = [] ∧ o.cacheWrites = [] ∧
      ∀ q ∈ o.upstreamCalls, q.series_id = params.series_id ∧
        q.observation_start = params.observation_start ∧
        q.observation_end = params.observation_end ∧
        q.realtime_start = params.realtime_start ∧
        q.realtime_end = params.realtime_end ∧ q.limit = 10000 := by
  unfold getObservationsHandler at h
  rw [if_pos hrt] at h
  rcases hfetch : requestObservationsFromFredMain oracle fuel
      params.series_id params.observation_start params.observation_end
      params.realtime_start params.realtime_end with - | ⟨tr, res⟩
  · simp [hfetch] at h
  rcases res with e | fresh
  · simp only [hfetch, Option.some.injEq] at h
    rw [← h]
    exact ⟨rfl, rfl, rfl, requestMain_calls_fields oracle fuel
      params.series_id params.observation_start params.observation_end
      params.realtime_start params.realtime_end tr _ hfetch⟩
  · simp only [hfetch, Option.some.injEq] at h
    rw [← h]
    exact ⟨rfl, rfl, rfl, requestMain_calls_fields oracle fuel
      params.series_id params.observation_start params.observation_end
      params.realtime_start params.realtime_end tr _ hfetch⟩

/-- Rows returned by a successful non-realtime request are either exactly
the cached rows restricted to the range or exactly the rows of a single
full-range fetch. -/
theorem getObservationsHandler_ok_shape (oracle : ObsOracle) (fuel : Nat)
    (params : GetObservationsParams) (db : ObsTable) (o : HandlerOutcome)
    (rows : List RealtimeObservation)
    (hrs : params.realtime_start = none) (hre : params.realtime_end = none)
    (h : getObservationsHandler oracle fuel params db = some o)
    (hok : o.result = .ok rows) :
    rows = getObservations db params.series_id params.observation_start
      params.observation_end ∨
      ∃ tr, requestObservationsFromFredMain oracle fuel params.series_id
        params.observation_start params.observation_end none none =
        some (tr, .ok rows) := by
  unfold getObservationsHandler at h
  rw [hrs, hre] at h
  simp only [Option.isSome_none, Bool.or_self, Bool.false_eq_true,
    if_false] at h
  rcases hc : (getObservations db params.series_id params.observation_start
      params.observation_end).head? with - | f
  <;> rcases hl : (getObservations db params.series_id
      params.observation_start params.observation_end).getLast? with - | l
  <;> simp only [hc, hl] at h
  · exact Or.inr (obsMissBranch_ok_shape oracle fuel params db _ o rows
      h hok)
  · exact Or.inr (obsMissBranch_ok_shape oracle fuel params db _ o rows
      h hok)
  · exact Or.inr (obsMissBranch_ok_shape oracle fuel params db _ o rows
      h hok)
  · exact obsHitBranch_ok_shape oracle fuel params db _ f l _ o rows h hok

/-- A failed request leaves the cache untouched: no arm of the handler
reaches `put_observations` on an error path. -/
theorem getObservationsHandler_error_frame (oracle : ObsOracle) (fuel : Nat)
    (params : GetObservationsParams) (db : ObsTable) (o : HandlerOutcome)
    (sc : StatusCode)
    (h : getObservationsHandler oracle fuel params db = some o)
    (he : o.result = .error sc) : o.db = db ∧ o.cacheWrites = [] := by
  unfold getObservationsHandler at h
  by_cases hrt : (params.realtime_start.isSome ||
      params.realtime_end.isSome) = true
  · rw [if_pos hrt] at h
    rcases hfetch : requestObservationsFromFredMain oracle fuel
        params.series_id params.observation_start params.observation_end
        params.realtime_start params.realtime_end with - | ⟨tr, res⟩
    · simp [hfetch] at h
    rcases res with e | fresh
    · simp only [hfetch, Option.some.injEq] at h
      rw [← h]
      exact ⟨rfl, rfl⟩
    · simp only [hfetch, Option.some.injEq] at h
      rw [← h] at he
      simp at he
  · rw [if_neg hrt] at h
    rcases hc : (getObservations db params.series_id
        params.observation_start params.observation_end).head? with - | f
    <;> rcases hl : (getObservations db params.series_id
        params.observation_start params.observation_end).getLast? with - | l
    <;> simp only [hc, hl] at h
    · exact obsMissBranch_error_frame oracle fuel params db _ o sc h he
    · exact obsMissBranch_error_frame oracle fuel params db _ o sc h he
    · exact obsMissBranch_error_frame oracle fuel params db _ o sc h he
    · exact obsHitBranch_error_frame oracle fuel params db _ f l _ o sc h he

/-- Concrete scenario shared by several claims: a well-formed cache holding
the SP500 rows of dates 3, 4 and 5. -/
def hitDb : ObsTable :=
  [{ series_id := "SP500", date := 3, value := "c3" },
   { series_id := "SP500", date := 4, value := "c4" },
   { series_id := "SP500", date := 5, value := "c5" }]

/-- The rows of `hitDb` as the cache returns them for the range `[3, 5]`. -/
def hitCached : List RealtimeObservation :=
  [{ date := 3, value := "c3" }, { date := 4, value := "c4" },
   { date := 5, value := "c5" }]

/-- An upstream that always answers with one empty page. -/
def emptyOracle : ObsOracle := fun _ =>
  .body (.payload { limit := 10000, observations := [] })

/-- Request for the exactly covered range `[3, 5]`, no realtime bounds. -/
def hitParams : GetObservationsParams :=
  { series_id := "SP500", observation_start := some 3,
    observation_end := some 5, realtime_start := none,
    realtime_end := none }

/-- C5, the claim as stated, refuted: on an exact cache hit the handler
does return exactly the cached rows and issues zero upstream calls, but it
does perform a cache write — `put_observations` is called unconditionally
after the match, rewriting the cached rows. -/
theorem getObservationsHandler_exact_hit_still_writes :
    getObservationsHandler emptyOracle 1 hitParams hitDb = some
      { result := .ok hitCached, db := hitDb, upstreamCalls := [],
        cacheReads := [("SP500", some 3, some 5)],
        cacheWrites := [("SP500", hitCached)] } ∧
    [("SP500", hitCached)] ≠
      ([] : List (String × List RealtimeObservation)) := by
  exact ⟨rfl, by simp⟩

/-- C5, amended: on an exact cache hit (cached rows exist and neither
boundary check finds a gap) the handler returns exactly the cached rows
restricted to the range, issues zero upstream calls, and its single
`put_observations` call rewrites exactly those cached rows, leaving the
cache state unchanged. -/
theorem getObservationsHandler_exact_hit (oracle : ObsOracle) (fuel : Nat)
    (params : GetObservationsParams) (db : ObsTable)
    (f l : RealtimeObservation) (hwf : db.wf)
    (hrs : params.realtime_start = none) (hre : params.realtime_end = none)
    (hf : (getObservations db params.series_id params.observation_start
      params.observation_end).head? = some f)
    (hl : (getObservations db params.series_id params.observation_start
      params.observation_end).getLast? = some l)
    (hstart : ∀ s, params.observation_start = some s → ¬ s < f.date)
    (hend : ∀ e, params.observation_end = some e → ¬ l.date < e) :
    getObservationsHandler oracle fuel params db = some
      { result := .ok (getObservations db params.series_id
          params.observation_start params.observation_end),
        db := db,
        upstreamCalls := [],
        cacheReads := [(params.series_id, params.observation_start,
          params.observation_end)],
        cacheWrites := [(params.series_id, getObservations db
          params.series_id params.observation_start
          params.observation_end)] } := by
  have hleftEq : leftGapStep oracle fuel params f =
      some ([], .ok ([], false)) := by
    unfold leftGapStep
    rcases hos : params.observation_start with - | s
    · rfl
    · simp only
      rw [if_neg (hstart s hos)]
  have hrightEq : rightGapStep oracle fuel params l false =
      some ([], .ok ([], false)) := by
    unfold rightGapStep
    rcases hoe : params.observation_end with - | e
    · rfl
    · simp only [Bool.false_eq_true, if_false]
      rw [if_neg (hend e hoe)]
  unfold getObservationsHandler
  rw [hrs, hre]
  simp only [Option.isSome_none, Bool.or_self, Bool.false_eq_true,
    if_false]
  simp only [hf, hl]
  unfold obsHitBranch
  simp only [hleftEq, hrightEq, Bool.or_self, Bool.false_eq_true,
    if_false, List.nil_append, List.append_nil]
  rw [putObservations_getObservations_noop db params.series_id
    params.observation_start params.observation_end hwf]

/-- When the right-gap step actually runs (not yet incomplete, end bound
given, cached data ends before it), the right-gap query
`[last.date + 1, end]` at offset 0 is among the queries it issues. -/
theorem rightGapStep_issues_query (oracle : ObsOracle) (fuel : Nat)
    (params : GetObservationsParams) (last_item : RealtimeObservation)
    (oe : Date) (hoe : params.observation_end = some oe)
    (hlt : last_item.date < oe) (trR : List ObsQuery)
    (resR : Except StatusCode (List RealtimeObservation × Bool))
    (h : rightGapStep oracle fuel params last_item false =
      some (trR, resR)) :
    paginationQuery params.series_id (some (last_item.date + 1)) (some oe)
      none none 0 ∈ trR := by
  unfold rightGapStep at h
  simp only [Bool.false_eq_true, if_false, hoe] at h
  rw [if_pos hlt] at h
  rcases hrf : requestObservationsFromFredMain oracle fuel params.series_id
      (some (last_item.date + 1)) (some oe) none none with - | ⟨tr2, res2⟩
  · rw [hrf] at h
    simp at h
  have hq0 := requestObservationsFromFredMain_first_call oracle fuel
    params.series_id (some (last_item.date + 1)) (some oe) none none
    tr2 res2 hrf
  rcases res2 with e | more
  · simp only [hrf, Option.some.injEq, Prod.mk.injEq] at h
    rw [← h.1]
    exact hq0
  · simp only [hrf] at h
    by_cases hm : 0 < more.length
    · rw [if_pos hm] at h
      simp only [Option.some.injEq, Prod.mk.injEq] at h
      rw [← h.1]
      exact hq0
    · rw [if_neg hm] at h
      simp only [Option.some.injEq, Prod.mk.injEq] at h
      rw [← h.1]
      exact hq0

/-- C1, amended: the right gap is checked only when the left gap produced
no data. Under that condition — the left-gap step returned no rows and did
not flag incompleteness — whenever the request specifies an end bound and
the latest cached row in range is strictly before it, the handler issues
the right-gap fetch `[last.date + 1 day, end]`. -/
theorem getObservationsHandler_right_gap_fetch (oracle : ObsOracle)
    (fuel : Nat) (params : GetObservationsParams) (db : ObsTable)
    (o : HandlerOutcome) (f l : RealtimeObservation) (oe : Date)
    (trL : List ObsQuery)
    (hrs : params.realtime_start = none) (hre : params.realtime_end = none)
    (hf : (getObservations db params.series_id params.observation_start
      params.observation_end).head? = some f)
    (hl : (getObservations db params.series_id params.observation_start
      params.observation_end).getLast? = some l)
    (hoe : params.observation_end = some oe) (hlt : l.date < oe)
    (hleft : leftGapStep oracle fuel params f = some (trL, .ok ([], false)))
    (hrun : getObservationsHandler oracle fuel params db = some o) :
    paginationQuery params.series_id (some (l.date + 1)) (some oe)
      none none 0 ∈ o.upstreamCalls := by
  unfold getObservationsHandler at hrun
  rw [hrs, hre] at hrun
  simp only [Option.isSome_none, Bool.or_self, Bool.false_eq_true,
    if_false] at hrun
  simp only [hf, hl] at hrun
  unfold obsHitBranch at hrun
  simp only [hleft] at hrun
  rcases hrstep : rightGapStep oracle fuel params l false
    with - | ⟨trR, resR⟩
  · simp [hrstep] at hrun
  have hq0 := rightGapStep_issues_query oracle fuel params l oe hoe hlt
    trR resR hrstep
  rcases resR with sc | ⟨rightRows, incR⟩
  · simp only [hrstep, Option.some.injEq] at hrun
    rw [← hrun]
    exact List.mem_append_right trL hq0
  · cases incR with
    | false =>
      simp only [hrstep, Bool.or_self, Bool.false_eq_true, if_false,
        Option.some.injEq] at hrun
      rw [← hrun]
      exact List.mem_append_right trL hq0
    | true =>
      simp only [hrstep, Bool.false_or, if_true] at hrun
      rcases hfetch : requestObservationsFromFredMain oracle fuel
          params.series_id params.observation_start params.observation_end
          none none with - | ⟨tr3, res3⟩
      · simp [hfetch] at hrun
      rcases res3 with e3 | observations3
      · simp only [hfetch, Option.some.injEq] at hrun
        rw [← hrun]
        exact List.mem_append_left tr3 (List.mem_append_right trL hq0)
      · simp only [hfetch, Option.some.injEq] at hrun
        rw [← hrun]
        exact List.mem_append_left tr3 (List.mem_append_right trL hq0)

/-- Realtime branch of the handler, success case: the returned rows are
exactly the rows of the one direct fetch carrying the realtime bounds. -/
theorem getObservationsHandler_realtime_ok (oracle : ObsOracle)
    (fuel : Nat) (params : GetObservationsParams) (db : ObsTable)
    (o : HandlerOutcome) (rows : List RealtimeObservation)
    (hrt : (params.realtime_start.isSome || params.realtime_end.isSome) =
      true)
    (h : getObservationsHandler oracle fuel params db = some o)
    (hok : o.result = .ok rows) :
    ∃ tr, requestObservationsFromFredMain oracle fuel params.series_id
      params.observation_start params.observation_end
      params.realtime_start params.realtime_end = some (tr, .ok rows) := by
  unfold getObservationsHandler at h
  rw [if_pos hrt] at h
  rcases hfetch : requestObservationsFromFredMain oracle fuel
      params.series_id params.observation_start params.observation_end
      params.realtime_start params.realtime_end with - | ⟨tr, res⟩
  · simp [hfetch] at h
  rcases res with e | fresh
  · simp only [hfetch, Option.some.injEq] at h
    rw [← h] at hok
    simp at hok
  · simp only [hfetch, Option.some.injEq] at h
    rw [← h] at hok
    simp only [Except.ok.injEq] at hok
    exact ⟨tr, by rw [← hok]⟩

/-- Cache for the gap scenarios: SP500 rows on dates 3 and 4 only. -/
def gapDb : ObsTable :=
  [{ series_id := "SP500", date := 3, value := "c3" },
   { series_id := "SP500", date := 4, value := "c4" }]

/-- Request for `[1, 10]` against `gapDb`: both a left gap (1..2) and a
right gap (5..10) exist. -/
def gapParams : GetObservationsParams :=
  { series_id := "SP500", observation_start := some 1,
    observation_end := some 10, realtime_start := none,
    realtime_end := none }

/-- Upstream for the C1 counterexample: the left-gap query `[1, 2]` yields
one row, every other query yields the full window. -/
def gapOracle : ObsOracle := fun q =>
  if q.observation_start == some 1 && q.observation_end == some 2 then
    .body (.payload { limit := 10000,
                      observations := [{ date := 1, value := "a1" }] })
  else
    .body (.payload { limit := 10000,
                      observations := [{ date := 1, value := "a1" },
                        { date := 3, value := "c3" },
                        { date := 4, value := "c4" },
                        { date := 9, value := "a9" }] })

/-- Upstream for the C1 witness: the left-gap query `[1, 2]` yields no
rows, the right-gap query `[5, 10]` yields one row, everything else is
empty. -/
def quietLeftOracle : ObsOracle := fun q =>
  if q.observation_start == some 5 && q.observation_end == some 10 then
    .body (.payload { limit := 10000,
                      observations := [{ date := 9, value := "a9" }] })
  else
    .body (.payload { limit := 10000, observations := [] })

/-- Request with no date bounds and no realtime bounds. -/
def missParams : GetObservationsParams :=
  { series_id := "SP500", observation_start := none,
    observation_end := none, realtime_start := none, realtime_end := none }

/-- Upstream that answers every query with a provider error payload,
error code 429 (delivered with HTTP 200, so it reaches the body decoder). -/
def errOracle : ObsOracle := fun _ =>
  .body (.errorMessage { error_message := "Too Many Requests",
                         error_code := 429 })

/-- Upstream that answers every query with one single-row page. -/
def oneRowOracle : ObsOracle := fun _ =>
  .body (.payload { limit := 10000,
                    observations := [{ date := 1, value := "a" }] })

/-- Upstream that fails every query at the transport level with no
attached HTTP status. -/
def downOracle : ObsOracle := fun _ =>
  .transportError { status := none }

/-- Realtime request: `realtime_start` present. -/
def rtParams : GetObservationsParams :=
  { series_id := "SP500", observation_start := none,
    observation_end := none, realtime_start := some 7,
    realtime_end := none }

/-- Metadata the upstream reports for SP500. -/
def sp500Series : FredEconomicDataSeries :=
  { id := "SP500", last_updated := 100, observation_start := 1,
    observation_end := 10 }

/-- An older stored version of the SP500 metadata. -/
def sp500OldSeries : FredEconomicDataSeries :=
  { id := "SP500", last_updated := 50, observation_start := 1,
    observation_end := 9 }

/-- Series wire answer delivering `sp500Series`. -/
def seriesWire : SeriesWire := .body (.payload { seriess := [sp500Series] })

/-- Claim C1, the claim as stated, refuted: cache `gapDb` holds dates 3..4,
the request asks for `[1, 10]`, so the end is specified and the latest
cached row (date 4) is strictly before it — yet because the left-gap fetch
produced a row, the handler issues only the left-gap query `[1, 2]` and the
full re-fetch `[1, 10]`; the right-gap query `[5, 10]` is never issued. -/
theorem right_gap_skipped_when_left_gap_produced_data :
    ((getObservationsHandler gapOracle 1 gapParams gapDb).map
      (fun o => o.upstreamCalls)) =
      some [paginationQuery "SP500" (some 1) (some 2) none none 0,
            paginationQuery "SP500" (some 1) (some 10) none none 0] ∧
    gapParams.observation_end = some 10 ∧
    (getObservations gapDb "SP500" (some 1) (some 10)).getLast? =
      some { date := 4, value := "c4" } ∧
    (4 : Int) < 10 ∧
    paginationQuery "SP500" (some (4 + 1)) (some 10) none none 0 ∉
      [paginationQuery "SP500" (some 1) (some 2) none none 0,
       paginationQuery "SP500" (some 1) (some 10) none none 0] :=
  ⟨rfl, rfl, rfl, by decide, by decide⟩

/-- Claim C1 witness: with a left gap whose fetch returns no rows, a
request ending at 10 over cached data ending at 4 makes the handler issue
the right-gap query `[5, 10]`. -/
theorem right_gap_fetch_witness :
    paginationQuery "SP500" (some 5) (some 10) none none 0 ∈
      [paginationQuery "SP500" (some 1) (some 2) none none 0,
       paginationQuery "SP500" (some 5) (some 10) none none 0,
       paginationQuery "SP500" (some 1) (some 10) none none 0] :=
  getObservationsHandler_right_gap_fetch quietLeftOracle 1 gapParams gapDb
    { result := .ok [], db := gapDb,
      upstreamCalls :=
        [paginationQuery "SP500" (some 1) (some 2) none none 0,
         paginationQuery "SP500" (some 5) (some 10) none none 0,
         paginationQuery "SP500" (some 1) (some 10) none none 0],
      cacheReads := [("SP500", some 1, some 10)],
      cacheWrites := [("SP500", [])] }
    { date := 3, value := "c3" } { date := 4, value := "c4" } 10
    [paginationQuery "SP500" (some 1) (some 2) none none 0]
    rfl rfl rfl rfl rfl (by decide) rfl rfl

/-- Claim C2: on the handler path (main.rs request_observations_from_fred)
a provider error payload with error_code 429, delivered as an HTTP body,
is a serde decode failure with no attached status and surfaces as 503 —
not as the typed upstream error with status 429 that the unused fred.rs
variant produces from the very same wire answer. -/
theorem provider_error_payload_not_forwarded :
    getObservationsHandler errOracle 1 missParams [] = some
      { result := .error 503, db := [],
        upstreamCalls := [paginationQuery "SP500" none none none none 0],
        cacheReads := [("SP500", none, none)], cacheWrites := [] } ∧
    requestObservationsFromFredRs errOracle 1 "SP500" none none none none =
      some ([paginationQuery "SP500" none none none none 0],
        .error { status_code := 429,
                 error_message := some "Too Many Requests" }) ∧
    (503 : StatusCode) ≠ 429 :=
  ⟨rfl, rfl, by decide⟩

/-- Claim C3: with no stored record for the series, a successful metadata
fetch performs no cache write — the handler only writes inside the branch
that requires a stored record, so the metadata cache is never populated. -/
theorem series_metadata_not_written_on_first_fetch :
    getSeriesHandler seriesWire "SP500" [] =
      { result := .ok sp500Series, seriesDb := [], seriesWrites := [] } :=
  rfl

/-- Claim C4: `put_series` is a plain insert, not an upsert — it fails with
a unique-constraint error exactly when a record with the series id exists
(and succeeds on a fresh id), so its only call site, reached precisely when
a stored record exists, always surfaces HTTP 500. -/
theorem put_series_insert_fails_on_existing_id :
    putSeries [sp500OldSeries] sp500Series = .error .uniqueConstraint ∧
    putSeries [] sp500Series = .ok [sp500Series] ∧
    getSeriesHandler seriesWire "SP500" [sp500OldSeries] =
      { result := .error 500, seriesDb := [sp500OldSeries],
        seriesWrites := [sp500Series] } :=
  ⟨rfl, rfl, rfl⟩

/-- Claim C5 witness: the exact-hit theorem at the concrete covered
request `[3, 5]` over `hitDb`. -/
theorem exact_hit_witness :
    getObservationsHandler emptyOracle 1 hitParams hitDb = some
      { result := .ok hitCached, db := hitDb, upstreamCalls := [],
        cacheReads := [("SP500", some 3, some 5)],
        cacheWrites := [("SP500", hitCached)] } :=
  getObservationsHandler_exact_hit emptyOracle 1 hitParams hitDb
    { date := 3, value := "c3" } { date := 5, value := "c5" }
    (by decide) rfl rfl rfl rfl
    (fun s hs => by
      rw [show hitParams.observation_start = some 3 from rfl] at hs
      injection hs with h2
      rw [← h2]
      decide)
    (fun e he => by
      rw [show hitParams.observation_end = some 5 from rfl] at he
      injection he with h2
      rw [← h2]
      decide)

/-- Claim C6 (confirmed): a request with `realtime_start` or
`realtime_end` present never reads from or writes to the observation
cache, returns the cache state unchanged, and is served by direct upstream
fetches that carry exactly the request parameters including the realtime
bounds. -/
theorem realtime_request_bypasses_cache (oracle : ObsOracle) (fuel : Nat)
    (params : GetObservationsParams) (db : ObsTable) (o : HandlerOutcome)
    (hrt : params.realtime_start ≠ none ∨ params.realtime_end ≠ none)
    (h : getObservationsHandler oracle fuel params db = some o) :
    o.db = db ∧ o.cacheReads = [] ∧ o.cacheWrites = [] ∧
      ∀ q ∈ o.upstreamCalls, q.series_id = params.series_id ∧
        q.observation_start = params.observation_start ∧
        q.observation_end = params.observation_end ∧
        q.realtime_start = params.realtime_start ∧
        q.realtime_end = params.realtime_end ∧ q.limit = 10000 := by
  have hb : (params.realtime_start.isSome ||
      params.realtime_end.isSome) = true := by
    rcases hrt with h1 | h1
    · rcases hx : params.realtime_start with - | v
      · exact absurd hx h1
      · simp [hx]
    · rcases hx : params.realtime_end with - | v
      · exact absurd hx h1
      · simp [hx]
  exact getObservationsHandler_realtime_frame oracle fuel params db o hb h

/-- Claim C6 witness: the realtime request `rtParams` against `hitDb`. -/
theorem realtime_request_bypasses_cache_witness :
    ({ result := .ok [], db := hitDb,
       upstreamCalls := [paginationQuery "SP500" none none (some 7) none 0],
       cacheReads := [], cacheWrites := [] } : HandlerOutcome).db = hitDb ∧
    ({ result := .ok [], db := hitDb,
       upstreamCalls := [paginationQuery "SP500" none none (some 7) none 0],
       cacheReads := [], cacheWrites := [] } : HandlerOutcome).cacheReads =
      [] ∧
    ({ result := .ok [], db := hitDb,
       upstreamCalls := [paginationQuery "SP500" none none (some 7) none 0],
       cacheReads := [], cacheWrites := [] } : HandlerOutcome).cacheWrites =
      [] := by
  have h := realtime_request_bypasses_cache emptyOracle 1 rtParams hitDb
    { result := .ok [], db := hitDb,
      upstreamCalls := [paginationQuery "SP500" none none (some 7) none 0],
      cacheReads := [], cacheWrites := [] }
    (Or.inl (by decide)) rfl
  exact ⟨h.1, h.2.1, h.2.2.1⟩

/-- Claim C7 (confirmed): on an upstream whose payload responses echo the
requested page size 10000 in their limit field, every successful run of
the observations fetch refines `PaginationSpec`: it requests pages of
10000 rows starting at offset 0, follows up exactly when a page has at
least 10000 rows with the offset advanced by the total rows received so
far, stops at the first shorter page, and returns the pages concatenated
in order. -/
theorem pagination_follows_cursor_spec (oracle : ObsOracle) (fuel : Nat)
    (series_id : String) (os oe rs re : Option Date) (tr : List ObsQuery)
    (rows : List RealtimeObservation)
    (hlimit : ∀ q p, oracle q = .body (.payload p) → p.limit = 10000)
    (h : requestObservationsFromFredMain oracle fuel series_id os oe rs re =
      some (tr, .ok rows)) :
    PaginationSpec oracle series_id os oe rs re 0 rows tr := by
  obtain ⟨suffix, rows2, htr, hrows, hspec⟩ :=
    mainFetchPages_paginationSpec oracle series_id os oe rs re hlimit
      fuel 0 [] [] tr rows h
  simp only [List.nil_append] at htr hrows
  rw [htr, hrows]
  exact hspec

/-- Claim C7 witness: the single-page oracle at fuel 1. -/
theorem pagination_follows_cursor_spec_witness :
    PaginationSpec oneRowOracle "SP500" none none none none 0
      [{ date := 1, value := "a" }]
      [paginationQuery "SP500" none none none none 0] :=
  pagination_follows_cursor_spec oneRowOracle 1 "SP500" none none none none
    [paginationQuery "SP500" none none none none 0]
    [{ date := 1, value := "a" }]
    (fun q p h => by
      injection h with h2
      injection h2 with h3
      rw [← h3])
    rfl

/-- Claim C8 (confirmed): on a well-formed cache and an upstream whose
successful fetch results are strictly ascending by date (the sort
directive the code requests on every call), every successful handler
result is strictly ascending by date on adjacent pairs, however many
upstream calls or cached rows contributed. -/
theorem reconciliation_result_sorted (oracle : ObsOracle) (fuel : Nat)
    (params : GetObservationsParams) (db : ObsTable) (o : HandlerOutcome)
    (rows : List RealtimeObservation) (hwf : db.wf)
    (hsorted : ∀ os oe rs re tr rows2,
      requestObservationsFromFredMain oracle fuel params.series_id
        os oe rs re = some (tr, .ok rows2) → StrictlyDateSorted rows2)
    (h : getObservationsHandler oracle fuel params db = some o)
    (hok : o.result = .ok rows) :
    StrictlyDateSorted rows := by
  by_cases hrt : (params.realtime_start.isSome ||
      params.realtime_end.isSome) = true
  · obtain ⟨tr, hfetch⟩ := getObservationsHandler_realtime_ok oracle fuel
      params db o rows hrt h hok
    exact hsorted _ _ _ _ _ _ hfetch
  · have hrs : params.realtime_start = none := by
      rcases hx : params.realtime_start with - | v
      · rfl
      · rw [hx] at hrt
        simp at hrt
    have hre : params.realtime_end = none := by
      rcases hx : params.realtime_end with - | v
      · rfl
      · rw [hx] at hrt
        simp at hrt
    rcases getObservationsHandler_ok_shape oracle fuel params db o rows
      hrs hre h hok with hcache | ⟨tr, hfetch⟩
    · rw [hcache]
      exact getObservations_strictlySorted db params.series_id
        params.observation_start params.observation_end hwf
    · exact hsorted _ _ _ _ _ _ hfetch

/-- Claim C8 witness: the exact-hit run over `hitDb` returns the three
cached rows, strictly ascending. -/
theorem reconciliation_result_sorted_witness :
    StrictlyDateSorted hitCached := by
  have h := reconciliation_result_sorted emptyOracle 1 hitParams hitDb
    { result := .ok hitCached, db := hitDb, upstreamCalls := [],
      cacheReads := [("SP500", some 3, some 5)],
      cacheWrites := [("SP500", hitCached)] }
    hitCached (by decide)
    (fun os oe rs re tr rows2 hfetch => by
      simp [requestObservationsFromFredMain, mainFetchPages, emptyOracle,
        decodeObservationsPlain] at hfetch
      rw [hfetch.2]
      simp [StrictlyDateSorted])
    rfl rfl
  exact h

/-- Claim C9 (confirmed): whenever the observations handler fails, no
cache write has happened and the cache state is returned unchanged — both
gap-fill and full re-fetch failures abort before `put_observations`. -/
theorem failed_reconciliation_leaves_cache_unchanged (oracle : ObsOracle)
    (fuel : Nat) (params : GetObservationsParams) (db : ObsTable)
    (o : HandlerOutcome) (sc : StatusCode)
    (h : getObservationsHandler oracle fuel params db = some o)
    (he : o.result = .error sc) : o.db = db ∧ o.cacheWrites = [] :=
  getObservationsHandler_error_frame oracle fuel params db o sc h he

/-- Claim C9 witness: a transport-dead upstream fails the left-gap fetch
of the `[1, 10]` request; the cache `gapDb` is unchanged and unwritten. -/
theorem failed_reconciliation_leaves_cache_unchanged_witness :
    ({ result := .error 500, db := gapDb,
       upstreamCalls := [paginationQuery "SP500" (some 1) (some 2)
         none none 0],
       cacheReads := [("SP500", some 1, some 10)],
       cacheWrites := [] } : HandlerOutcome).db = gapDb ∧
    ({ result := .error 500, db := gapDb,
       upstreamCalls := [paginationQuery "SP500" (some 1) (some 2)
         none none 0],
       cacheReads := [("SP500", some 1, some 10)],
       cacheWrites := [] } : HandlerOutcome).cacheWrites = [] :=
  failed_reconciliation_leaves_cache_unchanged downOracle 1 gapParams gapDb
    { result := .error 500, db := gapDb,
      upstreamCalls := [paginationQuery "SP500" (some 1) (some 2)
        none none 0],
      cacheReads := [("SP500", some 1, some 10)],
      cacheWrites := [] } 500 rfl rfl

/-- Claim C10 (confirmed): a successful non-realtime request returns
either exactly the cached rows restricted to the requested range or
exactly the rows of one full-range upstream fetch; never a concatenation
of cached rows with gap-fetched rows. -/
theorem response_is_cached_or_single_full_fetch (oracle : ObsOracle)
    (fuel : Nat) (params : GetObservationsParams) (db : ObsTable)
    (o : HandlerOutcome) (rows : List RealtimeObservation)
    (hrs : params.realtime_start = none) (hre : params.realtime_end = none)
    (h : getObservationsHandler oracle fuel params db = some o)
    (hok : o.result = .ok rows) :
    rows = getObservations db params.series_id params.observation_start
      params.observation_end ∨
      ∃ tr, requestObservationsFromFredMain oracle fuel params.series_id
        params.observation_start params.observation_end none none =
        some (tr, .ok rows) :=
  getObservationsHandler_ok_shape oracle fuel params db o rows hrs hre h hok

/-- Claim C10 witness: a cache miss served by one full-range fetch. -/
theorem response_is_cached_or_single_full_fetch_witness :
    ([{ date := 1, value := "a" }] : List RealtimeObservation) =
      getObservations [] "SP500" none none ∨
      ∃ tr, requestObservationsFromFredMain oneRowOracle 1 "SP500"
        none none none none =
        some (tr, .ok [{ date := 1, value := "a" }]) :=
  response_is_cached_or_single_full_fetch oneRowOracle 1 missParams []
    { result := .ok [{ date := 1, value := "a" }],
      db := [{ series_id := "SP500", date := 1, value := "a" }],
      upstreamCalls := [paginationQuery "SP500" none none none none 0],
      cacheReads := [("SP500", none, none)],
      cacheWrites := [("SP500", [{ date := 1, value := "a" }])] }
    [{ date := 1, value := "a" }] rfl rfl rfl rfl
